import Mathlib

/-!
Shallow embedding of the Huawei Cloud OBS backend of OpenDAL
(src/core/src/services/obs/backend.rs and src/core/src/services/obs/writer.rs).

External collaborators (URI parsing, HTTP transport, error-body parsing,
metadata-header parsing, HTTP client construction) are passed as explicit
function parameters, so every theorem quantifies over their behaviour.
Request-building helpers that live in files outside the given sources
(obs/core.rs) are modelled from the spec and marked as such.
-/

namespace ObsSpec

/-- Error kinds from the OpenDAL error taxonomy used by this backend. -/
inductive ErrorKind where
  | ConfigInvalid
  | Unsupported
  | NotFound
  | Unexpected
deriving DecidableEq

/-- An OpenDAL error: a kind plus a message (context/source dropped). -/
structure OError where
  kind : ErrorKind
  message : String
deriving DecidableEq

/-- Entry mode of a stat result (EntryMode in OpenDAL). -/
inductive EntryMode where
  | FILE
  | DIR
  | Unknown
deriving DecidableEq

/-- Metadata of an entry; only the entry mode is relevant to the claims. -/
structure Metadata where
  mode : EntryMode
deriving DecidableEq

/-- Metadata::new. -/
def Metadata.new (m : EntryMode) : Metadata := ⟨m⟩

/-- Reply of a stat call (RpStat). -/
structure RpStat where
  meta : Metadata
deriving DecidableEq

/-- RpStat::new. -/
def RpStat.new (m : Metadata) : RpStat := ⟨m⟩

/-- Reply of a delete call (RpDelete, fieldless). -/
structure RpDelete where
deriving DecidableEq

/-- Reply of a write call (RpWrite, modelled fieldless). -/
structure RpWrite where
deriving DecidableEq

/-- An HTTP response as seen by this layer: status code and headers.
The body is consumed only through the abstract parsing collaborators. -/
structure Response where
  status : Nat
  headers : List (String × String)
deriving DecidableEq

/-- An HTTP request as assembled by the request core: method, object path and
the headers the claims mention (content-length, content-type, if-match). -/
structure Request where
  method : String
  path : String
  contentLength : Option Nat
  contentType : Option String
  ifMatch : Option String
deriving DecidableEq

/-- A parsed URI: scheme and host, the two components build consults
(http::Uri::scheme_str and http::Uri::host). -/
structure Uri where
  scheme : Option String
  host : Option String
deriving DecidableEq

/-- The signer collaborator handle; it stores the canonical resource string
given to HuaweicloudObsSigner::new at construction time. -/
structure HuaweicloudObsSigner where
  resource : String
deriving DecidableEq

/-- HuaweicloudObsSigner::new. -/
def HuaweicloudObsSigner.new (r : String) : HuaweicloudObsSigner := ⟨r⟩

/-- The immutable runtime context (ObsCore): bucket, normalized root,
resolved endpoint string and the signer (credential loader and HTTP client
handles are external collaborators and carry no observable state here). -/
structure ObsCore where
  bucket : String
  root : String
  endpoint : String
  signer : HuaweicloudObsSigner
deriving DecidableEq

/-- Backend for Huaweicloud OBS services (ObsBackend). -/
structure ObsBackend where
  core : ObsCore
deriving DecidableEq

/-- Options of a stat call; only the conditional-match tag matters here. -/
structure OpStat where
  if_match : Option String
deriving DecidableEq

/-- Options of a write call: append flag, content type, conditional match. -/
structure OpWrite where
  append : Bool
  content_type : Option String
  if_match : Option String
deriving DecidableEq

/-- The streaming writer (ObsWriter): core handle, options and path. -/
structure ObsWriter where
  core : ObsCore
  op : OpWrite
  path : String
deriving DecidableEq

/-- ObsWriter::new. -/
def ObsWriter.new (core : ObsCore) (op : OpWrite) (path : String) : ObsWriter :=
  ⟨core, op, path⟩

/-- Rust str::starts_with, on the character sequence of the string. -/
def starts_with (s pat : String) : Bool :=
  decide (s.data.take pat.data.length = pat.data)

/-- Rust str::ends_with, on the character sequence of the string. -/
def ends_with (s pat : String) : Bool :=
  decide (s.data.drop (s.data.length - pat.data.length) = pat.data
    ∧ pat.data.length ≤ s.data.length)

/-- Rust str::trim_end_matches with a single-character matcher: removes every
trailing occurrence of the character. -/
def trim_end_matches (s : String) (c : Char) : String :=
  ⟨(s.data.reverse.dropWhile (fun x => x = c)).reverse⟩

/-- The builder of the OBS backend (ObsBuilder); the optional HTTP client
override is external state and enters build as an explicit parameter. -/
structure ObsBuilder where
  root : Option String := none
  endpoint : Option String := none
  access_key_id : Option String := none
  secret_access_key : Option String := none
  bucket : Option String := none
deriving DecidableEq

/-- Debug formatting of one Option String field, as derived Debug prints it. -/
def debug_fmt_option : Option String → String
  | none => "None"
  | some s => "Some(\"" ++ s ++ "\")"

/-- ObsBuilder::fmt (the Debug impl, lines 101-111): prints root, endpoint and
bucket, and prints the literal "<redacted>" for both credentials. -/
def ObsBuilder.fmt (b : ObsBuilder) : String :=
  "Builder \x7b root: " ++ debug_fmt_option b.root ++
  ", endpoint: " ++ debug_fmt_option b.endpoint ++
  ", access_key_id: \"<redacted>\", secret_access_key: \"<redacted>\", bucket: " ++
  debug_fmt_option b.bucket ++ " \x7d"

/-- ObsBuilder::root: sets the field only when the argument is non-empty. -/
def ObsBuilder.set_root (b : ObsBuilder) (root : String) : ObsBuilder :=
  if root = "" then b else { b with root := some root }

/-- ObsBuilder::endpoint: sets the field, trailing slashes trimmed, only when
the argument is non-empty. -/
def ObsBuilder.set_endpoint (b : ObsBuilder) (endpoint : String) : ObsBuilder :=
  if endpoint = "" then b
  else { b with endpoint := some (trim_end_matches endpoint '/') }

/-- ObsBuilder::access_key_id: sets the field only when non-empty. -/
def ObsBuilder.set_access_key_id (b : ObsBuilder) (access_key_id : String) : ObsBuilder :=
  if access_key_id = "" then b else { b with access_key_id := some access_key_id }

/-- ObsBuilder::secret_access_key: sets the field only when non-empty. -/
def ObsBuilder.set_secret_access_key (b : ObsBuilder) (secret_access_key : String) : ObsBuilder :=
  if secret_access_key = "" then b else { b with secret_access_key := some secret_access_key }

/-- ObsBuilder::bucket: sets the field only when non-empty. -/
def ObsBuilder.set_bucket (b : ObsBuilder) (bucket : String) : ObsBuilder :=
  if bucket = "" then b else { b with bucket := some bucket }

/-- ObsBuilder::from_map (lines 189-200): applies each setter to the map entry
when the key is present. -/
def ObsBuilder.from_map (map : List (String × String)) : ObsBuilder :=
  let builder : ObsBuilder := {}
  let builder := match map.lookup "root" with
    | some v => builder.set_root v
    | none => builder
  let builder := match map.lookup "bucket" with
    | some v => builder.set_bucket v
    | none => builder
  let builder := match map.lookup "endpoint" with
    | some v => builder.set_endpoint v
    | none => builder
  let builder := match map.lookup "access_key_id" with
    | some v => builder.set_access_key_id v
    | none => builder
  let builder := match map.lookup "secret_access_key" with
    | some v => builder.set_secret_access_key v
    | none => builder
  builder

/-- Modelled from the spec: normalize_root lives outside the given sources
(crate::raw); per the spec it collapses slashes, ensures a leading slash and
strips the trailing slash except for the root itself. -/
def normalize_root (s : String) : String :=
  let segs := (s.splitOn "/").filter (fun seg => seg ≠ "")
  "/" ++ String.intercalate "/" segs

/-- Lines 232-239 of build: given the bucket and the endpoint host, return the
resolved endpoint host together with the is_obs_default addressing flag
(true = default-style virtual hosting, false = custom-style). -/
def resolveEndpoint (bucket host : String) : String × Bool :=
  if starts_with host "obs." && ends_with host ".myhuaweicloud.com" then
    (bucket ++ "." ++ host, true)
  else
    (host, false)

/-- ObsBuilder::build (lines 202-285). parseUri stands for
str::parse::<http::Uri> and newHttpClient for HttpClient::new, both external
collaborators; their results decide the corresponding branches exactly as in
the source. -/
def ObsBuilder.build (b : ObsBuilder) (parseUri : String → Option Uri)
    (newHttpClient : Except OError Unit) : Except OError ObsBackend :=
  let root := normalize_root (b.root.getD "")
  match b.bucket with
  | none => Except.error ⟨ErrorKind.ConfigInvalid, "The bucket is misconfigured"⟩
  | some bucket =>
    match b.endpoint with
    | none => Except.error ⟨ErrorKind.ConfigInvalid, "endpoint is empty"⟩
    | some ep =>
      match parseUri ep with
      | none => Except.error ⟨ErrorKind.ConfigInvalid, "endpoint is invalid"⟩
      | some uri =>
        let scheme := uri.scheme.getD "https"
        let host := uri.host.getD ""
        let r := resolveEndpoint bucket host
        match newHttpClient with
        | Except.error e => Except.error e
        | Except.ok _ =>
          Except.ok ⟨⟨bucket, root, scheme ++ "://" ++ r.1,
            HuaweicloudObsSigner.new (if r.2 then bucket else r.1)⟩⟩

/-- Modelled from the spec: obs_get_head_object (obs/core.rs, outside the
given sources) builds a HEAD request for the path carrying the
conditional-match header when supplied. -/
def obs_head_object_request (path : String) (if_match : Option String) : Request :=
  ⟨"HEAD", path, none, none, if_match⟩

/-- Modelled from the spec: obs_delete_object (obs/core.rs, outside the given
sources) builds a DELETE request for the path. -/
def obs_delete_object_request (path : String) : Request :=
  ⟨"DELETE", path, none, none, none⟩

/-- Modelled from the spec: obs_put_object_request (obs/core.rs, outside the
given sources) builds a PUT request; content-length is set only when the body
size is known, content-type and conditional-match only when supplied. -/
def obs_put_object_request (path : String) (size : Option Nat)
    (content_type : Option String) (if_match : Option String) : Request :=
  ⟨"PUT", path, size, content_type, if_match⟩

/-- ObsBackend::stat (lines 382-400). The transport collaborator maps the
signed request to a response; parse_into_metadata and parse_error are the
parsing collaborators. The second component counts transport round-trips. -/
def ObsBackend.stat (core : ObsCore) (path : String) (args : OpStat)
    (transport : Request → Response)
    (parse_into_metadata : String → List (String × String) → Except OError Metadata)
    (parse_error : Response → OError) : Except OError RpStat × Nat :=
  if path = "/" then
    (Except.ok (RpStat.new (Metadata.new EntryMode.DIR)), 0)
  else
    let resp := transport (obs_head_object_request path args.if_match)
    if resp.status = 200 then
      ((parse_into_metadata path resp.headers).map RpStat.new, 1)
    else if resp.status = 404 ∧ ends_with path "/" = true then
      (Except.ok (RpStat.new (Metadata.new EntryMode.DIR)), 1)
    else
      (Except.error (parse_error resp), 1)

/-- ObsBackend::delete (lines 402-413): statuses 204, 202 and 404 succeed,
anything else is handed to the error parser. The second component counts
transport round-trips. -/
def ObsBackend.delete (core : ObsCore) (path : String)
    (transport : Request → Response)
    (parse_error : Response → OError) : Except OError RpDelete × Nat :=
  let resp := transport (obs_delete_object_request path)
  if resp.status = 204 ∨ resp.status = 202 ∨ resp.status = 404 then
    (Except.ok ⟨⟩, 1)
  else
    (Except.error (parse_error resp), 1)

/-- ObsBackend::write (lines 354-366): append requested fails Unsupported,
otherwise a writer is produced; no transport is consulted in either branch,
which the constant second component 0 records. -/
def ObsBackend.write (core : ObsCore) (path : String) (args : OpWrite) :
    Except OError (RpWrite × ObsWriter) × Nat :=
  if args.append then
    (Except.error ⟨ErrorKind.Unsupported, "append write is not supported"⟩, 0)
  else
    (Except.ok (⟨⟩, ObsWriter.new core args path), 0)

/-- Outcome of one ObsWriter::write call: the request it sent, the result,
and whether the success body was drained via consume() before returning. -/
structure WriteOutcome where
  request : Request
  result : Except OError Unit
  bodyConsumed : Bool

/-- ObsWriter::write (writer.rs lines 45-67): builds the put request with the
exact byte count and the stored options, sends it, drains the body on 201/200
and hands any other status to the error parser. -/
def ObsWriter.write (w : ObsWriter) (bs : List Nat)
    (transport : Request → Response)
    (parse_error : Response → OError) : WriteOutcome :=
  let req := obs_put_object_request w.path (some bs.length) w.op.content_type w.op.if_match
  let resp := transport req
  if resp.status = 201 ∨ resp.status = 200 then
    { request := req, result := Except.ok (), bodyConsumed := true }
  else
    { request := req, result := Except.error (parse_error resp), bodyConsumed := false }

/-- ObsWriter::append (writer.rs lines 69-76): unconditionally Unsupported. -/
def ObsWriter.append (w : ObsWriter) (bs : List Nat) : Except OError Unit :=
  Except.error ⟨ErrorKind.Unsupported, "output writer doesn\x27t support append"⟩

/-- A concrete metadata-parsing collaborator, for instantiating theorems. -/
def pm0 : String → List (String × String) → Except OError Metadata :=
  fun _ _ => Except.ok (Metadata.new EntryMode.FILE)

/-- A concrete error-parsing collaborator, for instantiating theorems. -/
def pe0 : Response → OError := fun _ => ⟨ErrorKind.Unexpected, "unexpected status"⟩

/-- A transport that always answers 404. -/
def tr404 : Request → Response := fun _ => ⟨404, []⟩

/-- A transport that always answers 200. -/
def tr200 : Request → Response := fun _ => ⟨200, []⟩

/-- A transport that always answers 500. -/
def tr500 : Request → Response := fun _ => ⟨500, []⟩

/-- A parsed URI with a provider-default-domain host. -/
def uri0 : Uri := ⟨some "https", some "obs.cn-north-4.myhuaweicloud.com"⟩

/-- A parsed URI with a custom-domain host. -/
def uriCustom : Uri := ⟨some "https", some "custom.obs.com"⟩

/-- A URI parser answering a fixed default-domain host. -/
def pu0 : String → Option Uri := fun _ => some uri0

/-- A URI parser that rejects every input. -/
def puFail : String → Option Uri := fun _ => none

/-- A URI parser answering a fixed custom-domain host. -/
def puCustom : String → Option Uri := fun _ => some uriCustom

/-- A concrete runtime context, for instantiating theorems. -/
def core0 : ObsCore := ⟨"b", "/", "https://b.obs.cn-north-4.myhuaweicloud.com", ⟨"b"⟩⟩

/-- Concrete stat options, for instantiating theorems. -/
def opStat0 : OpStat := ⟨none⟩

/-- Concrete write options with the append flag set. -/
def opWriteAppend : OpWrite := ⟨true, none, none⟩

/-- Concrete write options without the append flag. -/
def opWrite0 : OpWrite := ⟨false, some "text/plain", some "etag"⟩

/-- A concrete writer, for instantiating theorems. -/
def writer0 : ObsWriter := ⟨core0, opWrite0, "p"⟩

/-- A builder with no option set. -/
def builderEmpty : ObsBuilder := {}

/-- A builder with bucket and a default-domain endpoint set. -/
def builder0 : ObsBuilder :=
  { bucket := some "b", endpoint := some "obs.cn-north-4.myhuaweicloud.com" }

/-- A builder with bucket and a custom-domain endpoint set. -/
def builderCustom : ObsBuilder :=
  { bucket := some "b", endpoint := some "custom.obs.com" }

/-- A fully populated builder, first credential pair. -/
def builderA : ObsBuilder := ⟨some "/r", some "ep", some "AK1", some "SK1", some "b"⟩

/-- Like builderA but with a different credential pair. -/
def builderB : ObsBuilder := ⟨some "/r", some "ep", some "AK2", some "SK2", some "b"⟩

/-- A configuration map whose bucket value is the empty string. -/
def mapEmptyBucket : List (String × String) :=
  [("bucket", ""), ("endpoint", "obs.cn-north-4.myhuaweicloud.com")]

theorem build_bucket_none (b : ObsBuilder) (pu : String → Option Uri)
    (nc : Except OError Unit) (h : b.bucket = none) :
    b.build pu nc = Except.error ⟨ErrorKind.ConfigInvalid, "The bucket is misconfigured"⟩ := by
  simp [ObsBuilder.build, h]

theorem build_endpoint_none (b : ObsBuilder) (pu : String → Option Uri)
    (nc : Except OError Unit) (bk : String) (hb : b.bucket = some bk)
    (he : b.endpoint = none) :
    b.build pu nc = Except.error ⟨ErrorKind.ConfigInvalid, "endpoint is empty"⟩ := by
  simp [ObsBuilder.build, hb, he]

theorem build_endpoint_invalid (b : ObsBuilder) (pu : String → Option Uri)
    (nc : Except OError Unit) (bk ep : String) (hb : b.bucket = some bk)
    (he : b.endpoint = some ep) (hp : pu ep = none) :
    b.build pu nc = Except.error ⟨ErrorKind.ConfigInvalid, "endpoint is invalid"⟩ := by
  simp [ObsBuilder.build, hb, he, hp]

/-- C2: build fails with a ConfigInvalid error whenever the bucket option is
absent, and whenever the endpoint option is absent or does not parse as a
URL; in every such case the result is an error, so no backend is produced. -/
theorem build_fails_ConfigInvalid (b : ObsBuilder) (pu : String → Option Uri)
    (nc : Except OError Unit)
    (h : b.bucket = none ∨ b.endpoint = none ∨
      ∃ ep, b.endpoint = some ep ∧ pu ep = none) :
    ∃ msg, b.build pu nc = Except.error ⟨ErrorKind.ConfigInvalid, msg⟩ := by
  rcases h with h | h | ⟨ep, he, hp⟩
  · exact ⟨_, build_bucket_none b pu nc h⟩
  · cases hbk : b.bucket with
    | none => exact ⟨_, build_bucket_none b pu nc hbk⟩
    | some bk => exact ⟨_, build_endpoint_none b pu nc bk hbk h⟩
  · cases hbk : b.bucket with
    | none => exact ⟨_, build_bucket_none b pu nc hbk⟩
    | some bk => exact ⟨_, build_endpoint_invalid b pu nc bk ep hbk he hp⟩

theorem build_fails_ConfigInvalid_witness :
    (builderEmpty.bucket = none ∨ builderEmpty.endpoint = none ∨
      ∃ ep, builderEmpty.endpoint = some ep ∧ pu0 ep = none) ∧
    ∃ msg, builderEmpty.build pu0 (Except.ok ())
      = Except.error ⟨ErrorKind.ConfigInvalid, msg⟩ :=
  ⟨Or.inl rfl, build_fails_ConfigInvalid builderEmpty pu0 (Except.ok ()) (Or.inl rfl)⟩

/-- C4: stat of the root path returns synthetic directory metadata and issues
zero transport calls, for every option set and every collaborator. -/
theorem stat_root_dir_no_network (core : ObsCore) (args : OpStat)
    (transport : Request → Response)
    (pm : String → List (String × String) → Except OError Metadata)
    (pe : Response → OError) :
    ObsBackend.stat core "/" args transport pm pe
      = (Except.ok (RpStat.new (Metadata.new EntryMode.DIR)), 0) := by
  simp [ObsBackend.stat]

/-- C5: delete succeeds exactly when the response status is 204, 202 or 404,
and for any other status it returns the parsed error body. -/
theorem delete_status_mapping (core : ObsCore) (path : String)
    (transport : Request → Response) (parse_error : Response → OError) :
    ((ObsBackend.delete core path transport parse_error).1 = Except.ok ⟨⟩ ↔
      ((transport (obs_delete_object_request path)).status = 204 ∨
       (transport (obs_delete_object_request path)).status = 202 ∨
       (transport (obs_delete_object_request path)).status = 404)) ∧
    (¬((transport (obs_delete_object_request path)).status = 204 ∨
       (transport (obs_delete_object_request path)).status = 202 ∨
       (transport (obs_delete_object_request path)).status = 404) →
      (ObsBackend.delete core path transport parse_error).1
        = Except.error (parse_error (transport (obs_delete_object_request path)))) := by
  constructor
  · constructor
    · intro h
      by_contra hn
      simp [ObsBackend.delete, hn] at h
    · intro h
      simp [ObsBackend.delete, h]
  · intro h
    simp [ObsBackend.delete, h]

theorem delete_status_mapping_witness :
    ¬((tr500 (obs_delete_object_request "p")).status = 204 ∨
      (tr500 (obs_delete_object_request "p")).status = 202 ∨
      (tr500 (obs_delete_object_request "p")).status = 404) ∧
    (ObsBackend.delete core0 "p" tr500 pe0).1
      = Except.error (pe0 (tr500 (obs_delete_object_request "p"))) :=
  ⟨by decide, (delete_status_mapping core0 "p" tr500 pe0).2 (by decide)⟩

theorem build_ok (b : ObsBuilder) (pu : String → Option Uri)
    (nc : Except OError Unit) (bucket ep : String) (uri : Uri)
    (hb : b.bucket = some bucket) (he : b.endpoint = some ep)
    (hp : pu ep = some uri) (hc : nc = Except.ok ()) :
    b.build pu nc = Except.ok ⟨⟨bucket, normalize_root (b.root.getD ""),
      uri.scheme.getD "https" ++ "://" ++ (resolveEndpoint bucket (uri.host.getD "")).1,
      HuaweicloudObsSigner.new
        (if (resolveEndpoint bucket (uri.host.getD "")).2 then bucket
         else (resolveEndpoint bucket (uri.host.getD "")).1)⟩⟩ := by
  simp [ObsBuilder.build, hb, he, hp, hc]

/-- C1: for a bucket B and an endpoint host matching the provider default
domain pattern (host starts with "obs." and ends with ".myhuaweicloud.com"),
the endpoint stored in the runtime context is scheme://B.host and the
is_obs_default flag is true; for any non-matching host the stored endpoint
uses the host unchanged and the flag is false. -/
theorem endpoint_resolution_styles (b : ObsBuilder) (pu : String → Option Uri)
    (nc : Except OError Unit) (bucket ep : String) (uri : Uri) (host : String)
    (hb : b.bucket = some bucket) (he : b.endpoint = some ep)
    (hp : pu ep = some uri) (hh : uri.host = some host)
    (hc : nc = Except.ok ()) :
    ∃ be, b.build pu nc = Except.ok be ∧
      ((starts_with host "obs." && ends_with host ".myhuaweicloud.com") = true →
        be.core.endpoint = uri.scheme.getD "https" ++ "://" ++ (bucket ++ "." ++ host) ∧
        (resolveEndpoint bucket host).2 = true) ∧
      ((starts_with host "obs." && ends_with host ".myhuaweicloud.com") = false →
        be.core.endpoint = uri.scheme.getD "https" ++ "://" ++ host ∧
        (resolveEndpoint bucket host).2 = false) := by
  refine ⟨_, build_ok b pu nc bucket ep uri hb he hp hc, ?_, ?_⟩
  · intro hmatch
    simp [hh, resolveEndpoint, hmatch]
  · intro hmatch
    simp [hh, resolveEndpoint, hmatch]

theorem endpoint_resolution_styles_witness :
    builder0.bucket = some "b" ∧
    builder0.endpoint = some "obs.cn-north-4.myhuaweicloud.com" ∧
    pu0 "obs.cn-north-4.myhuaweicloud.com" = some uri0 ∧
    uri0.host = some "obs.cn-north-4.myhuaweicloud.com" ∧
    ∃ be, builder0.build pu0 (Except.ok ()) = Except.ok be ∧
      ((starts_with "obs.cn-north-4.myhuaweicloud.com" "obs." &&
        ends_with "obs.cn-north-4.myhuaweicloud.com" ".myhuaweicloud.com") = true →
        be.core.endpoint = (uri0.scheme.getD "https") ++ "://"
          ++ ("b" ++ "." ++ "obs.cn-north-4.myhuaweicloud.com") ∧
        (resolveEndpoint "b" "obs.cn-north-4.myhuaweicloud.com").2 = true) ∧
      ((starts_with "obs.cn-north-4.myhuaweicloud.com" "obs." &&
        ends_with "obs.cn-north-4.myhuaweicloud.com" ".myhuaweicloud.com") = false →
        be.core.endpoint = (uri0.scheme.getD "https") ++ "://"
          ++ "obs.cn-north-4.myhuaweicloud.com" ∧
        (resolveEndpoint "b" "obs.cn-north-4.myhuaweicloud.com").2 = false) :=
  ⟨rfl, rfl, rfl, rfl,
    endpoint_resolution_styles builder0 pu0 (Except.ok ()) "b"
      "obs.cn-north-4.myhuaweicloud.com" uri0 "obs.cn-north-4.myhuaweicloud.com"
      rfl rfl rfl rfl rfl⟩

/-- C8: the canonical resource string handed to the signer is selected once
inside build and stored in the signer field of the runtime context: the
bucket name alone for default-style addressing, the resolved host for
custom-style addressing. -/
theorem signer_resource_selection (b : ObsBuilder) (pu : String → Option Uri)
    (nc : Except OError Unit) (bucket ep : String) (uri : Uri) (host : String)
    (hb : b.bucket = some bucket) (he : b.endpoint = some ep)
    (hp : pu ep = some uri) (hh : uri.host = some host)
    (hc : nc = Except.ok ()) :
    ∃ be, b.build pu nc = Except.ok be ∧
      be.core.signer = HuaweicloudObsSigner.new
        (if (resolveEndpoint bucket host).2 then bucket
         else (resolveEndpoint bucket host).1) ∧
      ((starts_with host "obs." && ends_with host ".myhuaweicloud.com") = true →
        be.core.signer.resource = bucket) ∧
      ((starts_with host "obs." && ends_with host ".myhuaweicloud.com") = false →
        be.core.signer.resource = host) := by
  refine ⟨_, build_ok b pu nc bucket ep uri hb he hp hc, ?_, ?_, ?_⟩
  · simp [hh]
  · intro hmatch
    simp [resolveEndpoint, hmatch, hh, HuaweicloudObsSigner.new]
  · intro hmatch
    simp [resolveEndpoint, hmatch, hh, HuaweicloudObsSigner.new]

theorem signer_resource_selection_witness :
    builderCustom.bucket = some "b" ∧
    builderCustom.endpoint = some "custom.obs.com" ∧
    puCustom "custom.obs.com" = some uriCustom ∧
    uriCustom.host = some "custom.obs.com" ∧
    ∃ be, builderCustom.build puCustom (Except.ok ()) = Except.ok be ∧
      be.core.signer = HuaweicloudObsSigner.new
        (if (resolveEndpoint "b" "custom.obs.com").2 then "b"
         else (resolveEndpoint "b" "custom.obs.com").1) ∧
      ((starts_with "custom.obs.com" "obs." &&
        ends_with "custom.obs.com" ".myhuaweicloud.com") = true →
        be.core.signer.resource = "b") ∧
      ((starts_with "custom.obs.com" "obs." &&
        ends_with "custom.obs.com" ".myhuaweicloud.com") = false →
        be.core.signer.resource = "custom.obs.com") :=
  ⟨rfl, rfl, rfl, rfl,
    signer_resource_selection builderCustom puCustom (Except.ok ()) "b"
      "custom.obs.com" uriCustom "custom.obs.com" rfl rfl rfl rfl rfl⟩

/-- C3: for every path ending in the separator, a 404 response to the HEAD
request yields directory metadata rather than NotFound; when the request is
actually issued (path is not the root), status 200 yields the metadata parsed
from the response headers and any other status the parsed error body. -/
theorem stat_trailing_slash_dispatch (core : ObsCore) (path : String) (args : OpStat)
    (transport : Request → Response)
    (pm : String → List (String × String) → Except OError Metadata)
    (pe : Response → OError)
    (hslash : ends_with path "/" = true) :
    ((transport (obs_head_object_request path args.if_match)).status = 404 →
      (ObsBackend.stat core path args transport pm pe).1
        = Except.ok (RpStat.new (Metadata.new EntryMode.DIR))) ∧
    (path ≠ "/" →
      (transport (obs_head_object_request path args.if_match)).status = 200 →
      (ObsBackend.stat core path args transport pm pe).1
        = (pm path (transport (obs_head_object_request path args.if_match)).headers).map
            RpStat.new) ∧
    (path ≠ "/" →
      (transport (obs_head_object_request path args.if_match)).status ≠ 200 →
      (transport (obs_head_object_request path args.if_match)).status ≠ 404 →
      (ObsBackend.stat core path args transport pm pe).1
        = Except.error (pe (transport (obs_head_object_request path args.if_match)))) := by
  refine ⟨?_, ?_, ?_⟩
  · intro h404
    by_cases hroot : path = "/"
    · simp [ObsBackend.stat, hroot]
    · have h200 : (transport (obs_head_object_request path args.if_match)).status ≠ 200 := by
        rw [h404]
        decide
      simp [ObsBackend.stat, hroot, h404, h200, hslash]
  · intro hroot h200
    simp [ObsBackend.stat, hroot, h200]
  · intro hroot h200 h404
    simp [ObsBackend.stat, hroot, h200, h404]

theorem stat_trailing_slash_witness :
    ends_with "a/" "/" = true ∧
    (tr404 (obs_head_object_request "a/" opStat0.if_match)).status = 404 ∧
    (ObsBackend.stat core0 "a/" opStat0 tr404 pm0 pe0).1
      = Except.ok (RpStat.new (Metadata.new EntryMode.DIR)) :=
  ⟨by decide, by decide,
    (stat_trailing_slash_dispatch core0 "a/" opStat0 tr404 pm0 pe0 (by decide)).1
      (by decide)⟩

/-- C6: a write call with the append flag set fails with Unsupported while
issuing zero transport calls, and the Writer append method fails with
Unsupported for every byte input. -/
theorem write_append_unsupported (core : ObsCore) (path : String) (args : OpWrite)
    (w : ObsWriter) (bs : List Nat) (h : args.append = true) :
    ObsBackend.write core path args
      = (Except.error ⟨ErrorKind.Unsupported, "append write is not supported"⟩, 0) ∧
    ObsWriter.append w bs
      = Except.error ⟨ErrorKind.Unsupported, "output writer doesn\x27t support append"⟩ := by
  refine ⟨?_, rfl⟩
  simp [ObsBackend.write, h]

theorem write_append_unsupported_witness :
    opWriteAppend.append = true ∧
    ObsBackend.write core0 "p" opWriteAppend
      = (Except.error ⟨ErrorKind.Unsupported, "append write is not supported"⟩, 0) ∧
    ObsWriter.append writer0 [1, 2]
      = Except.error ⟨ErrorKind.Unsupported, "output writer doesn\x27t support append"⟩ :=
  ⟨rfl, (write_append_unsupported core0 "p" opWriteAppend writer0 [1, 2] rfl).1,
    (write_append_unsupported core0 "p" opWriteAppend writer0 [1, 2] rfl).2⟩

/-- C7: the Writer write call builds a put request whose content-length is
the exact byte count and whose content-type and conditional-match come from
the stored options; the result is success exactly for statuses 201 and 200,
success implies the response body was drained, and any other status yields
the parsed error body. -/
theorem writer_write_request_and_status (w : ObsWriter) (bs : List Nat)
    (transport : Request → Response) (pe : Response → OError) :
    (ObsWriter.write w bs transport pe).request
      = obs_put_object_request w.path (some bs.length) w.op.content_type w.op.if_match ∧
    (ObsWriter.write w bs transport pe).request.contentLength = some bs.length ∧
    (ObsWriter.write w bs transport pe).request.contentType = w.op.content_type ∧
    (ObsWriter.write w bs transport pe).request.ifMatch = w.op.if_match ∧
    ((ObsWriter.write w bs transport pe).result = Except.ok () ↔
      ((transport (obs_put_object_request w.path (some bs.length)
          w.op.content_type w.op.if_match)).status = 201 ∨
       (transport (obs_put_object_request w.path (some bs.length)
          w.op.content_type w.op.if_match)).status = 200)) ∧
    ((ObsWriter.write w bs transport pe).result = Except.ok () →
      (ObsWriter.write w bs transport pe).bodyConsumed = true) ∧
    (¬((transport (obs_put_object_request w.path (some bs.length)
          w.op.content_type w.op.if_match)).status = 201 ∨
       (transport (obs_put_object_request w.path (some bs.length)
          w.op.content_type w.op.if_match)).status = 200) →
      (ObsWriter.write w bs transport pe).result
        = Except.error (pe (transport (obs_put_object_request w.path (some bs.length)
            w.op.content_type w.op.if_match)))) := by
  by_cases hs : ((transport (obs_put_object_request w.path (some bs.length)
      w.op.content_type w.op.if_match)).status = 201 ∨
    (transport (obs_put_object_request w.path (some bs.length)
      w.op.content_type w.op.if_match)).status = 200)
  · simp only [ObsWriter.write]
    rw [if_pos hs]
    simp [hs]
    simp [obs_put_object_request]
  · simp only [ObsWriter.write]
    rw [if_neg hs]
    simp [hs]
    simp [obs_put_object_request]

theorem writer_write_request_and_status_witness :
    ((tr200 (obs_put_object_request writer0.path (some 2)
        writer0.op.content_type writer0.op.if_match)).status = 201 ∨
     (tr200 (obs_put_object_request writer0.path (some 2)
        writer0.op.content_type writer0.op.if_match)).status = 200) ∧
    (ObsWriter.write writer0 [104, 105] tr200 pe0).result = Except.ok () ∧
    (ObsWriter.write writer0 [104, 105] tr200 pe0).bodyConsumed = true ∧
    (ObsWriter.write writer0 [104, 105] tr200 pe0).request.contentLength = some 2 :=
  have h := writer_write_request_and_status writer0 [104, 105] tr200 pe0
  have hok : (ObsWriter.write writer0 [104, 105] tr200 pe0).result = Except.ok () :=
    h.2.2.2.2.1.mpr (Or.inr (by decide))
  ⟨Or.inr (by decide), hok, h.2.2.2.2.2.1 hok, h.2.1.trans (by decide)⟩

/-- C9: the Debug formatting prints both credentials as the literal
"<redacted>": two builders that agree on root, endpoint and bucket have
identical Debug output whatever their credentials are. -/
theorem debug_redacts_credentials (b1 b2 : ObsBuilder)
    (hr : b1.root = b2.root) (he : b1.endpoint = b2.endpoint)
    (hb : b1.bucket = b2.bucket) :
    b1.fmt = b2.fmt := by
  simp [ObsBuilder.fmt, hr, he, hb]

theorem debug_redacts_credentials_witness :
    builderA.root = builderB.root ∧ builderA.endpoint = builderB.endpoint ∧
    builderA.bucket = builderB.bucket ∧
    builderA.access_key_id ≠ builderB.access_key_id ∧
    builderA.secret_access_key ≠ builderB.secret_access_key ∧
    builderA.fmt = builderB.fmt :=
  ⟨rfl, rfl, rfl, by decide, by decide,
    debug_redacts_credentials builderA builderB rfl rfl rfl⟩

theorem set_root_empty (b : ObsBuilder) : b.set_root "" = b := by
  simp [ObsBuilder.set_root]

theorem set_bucket_empty (b : ObsBuilder) : b.set_bucket "" = b := by
  simp [ObsBuilder.set_bucket]

theorem set_endpoint_empty (b : ObsBuilder) : b.set_endpoint "" = b := by
  simp [ObsBuilder.set_endpoint]

theorem set_access_key_id_empty (b : ObsBuilder) : b.set_access_key_id "" = b := by
  simp [ObsBuilder.set_access_key_id]

theorem set_secret_access_key_empty (b : ObsBuilder) : b.set_secret_access_key "" = b := by
  simp [ObsBuilder.set_secret_access_key]

theorem from_map_bucket (m : List (String × String)) :
    (ObsBuilder.from_map m).bucket
      = match m.lookup "bucket" with
        | none => none
        | some v => if v = "" then none else some v := by
  unfold ObsBuilder.from_map
  cases m.lookup "root" <;> cases m.lookup "bucket" <;>
  cases m.lookup "endpoint" <;> cases m.lookup "access_key_id" <;>
  cases m.lookup "secret_access_key" <;>
  simp [ObsBuilder.set_root, ObsBuilder.set_bucket, ObsBuilder.set_endpoint,
    ObsBuilder.set_access_key_id, ObsBuilder.set_secret_access_key] <;>
  split_ifs <;> rfl

theorem from_map_endpoint (m : List (String × String)) :
    (ObsBuilder.from_map m).endpoint
      = match m.lookup "endpoint" with
        | none => none
        | some v => if v = "" then none else some (trim_end_matches v '/') := by
  unfold ObsBuilder.from_map
  cases m.lookup "root" <;> cases m.lookup "bucket" <;>
  cases m.lookup "endpoint" <;> cases m.lookup "access_key_id" <;>
  cases m.lookup "secret_access_key" <;>
  simp [ObsBuilder.set_root, ObsBuilder.set_bucket, ObsBuilder.set_endpoint,
    ObsBuilder.set_access_key_id, ObsBuilder.set_secret_access_key] <;>
  split_ifs <;> rfl

/-- C10: every setter ignores an empty-string argument, and a configuration
map whose bucket or endpoint value is the empty string leaves that option
unset, so build fails with ConfigInvalid. -/
theorem empty_config_values_ignored (b : ObsBuilder) (m : List (String × String))
    (pu : String → Option Uri) (nc : Except OError Unit)
    (hm : m.lookup "bucket" = some "" ∨ m.lookup "endpoint" = some "") :
    b.set_root "" = b ∧ b.set_bucket "" = b ∧ b.set_endpoint "" = b ∧
    b.set_access_key_id "" = b ∧ b.set_secret_access_key "" = b ∧
    ∃ msg, (ObsBuilder.from_map m).build pu nc
      = Except.error ⟨ErrorKind.ConfigInvalid, msg⟩ := by
  refine ⟨set_root_empty b, set_bucket_empty b, set_endpoint_empty b,
    set_access_key_id_empty b, set_secret_access_key_empty b, ?_⟩
  rcases hm with hm | hm
  · have hb : (ObsBuilder.from_map m).bucket = none := by
      rw [from_map_bucket, hm]
      simp
    exact ⟨_, build_bucket_none _ pu nc hb⟩
  · have hep : (ObsBuilder.from_map m).endpoint = none := by
      rw [from_map_endpoint, hm]
      simp
    cases hbk : (ObsBuilder.from_map m).bucket with
    | none => exact ⟨_, build_bucket_none _ pu nc hbk⟩
    | some bk => exact ⟨_, build_endpoint_none _ pu nc bk hbk hep⟩

theorem empty_config_values_ignored_witness :
    (mapEmptyBucket.lookup "bucket" = some "" ∨
      mapEmptyBucket.lookup "endpoint" = some "") ∧
    builderEmpty.set_root "" = builderEmpty ∧
    builderEmpty.set_bucket "" = builderEmpty ∧
    builderEmpty.set_endpoint "" = builderEmpty ∧
    builderEmpty.set_access_key_id "" = builderEmpty ∧
    builderEmpty.set_secret_access_key "" = builderEmpty ∧
    ∃ msg, (ObsBuilder.from_map mapEmptyBucket).build pu0 (Except.ok ())
      = Except.error ⟨ErrorKind.ConfigInvalid, msg⟩ :=
  have h := empty_config_values_ignored builderEmpty mapEmptyBucket pu0
    (Except.ok ()) (Or.inl (by decide))
  ⟨Or.inl (by decide), h.1, h.2.1, h.2.2.1, h.2.2.2.1, h.2.2.2.2.1, h.2.2.2.2.2⟩

end ObsSpec
